import Mathlib

/-!
Verification of the subscription/payment reconciliation core of a Telegram
sales bot (single source file `main.py`).

Shallow embedding conventions:
* Timestamps are `Int` seconds (UTC).  `timedelta(days=n)` is `86400 * n`
  seconds and `timedelta(hours=24)` is `86400` seconds.
* The sqlite `users` and `payments` tables are modelled as a list of primary
  keys together with a total content function; a row exists exactly when its
  key is in the key list (the PRIMARY KEY constraint makes keys unique, which
  theorems carry as a `Nodup` hypothesis).
* `utc_now()` becomes an explicit `now : Int` parameter.
* The outbound Mercado Pago fetch (`fetch_payment`, which can raise on
  timeout/error) becomes an oracle `fetch : Nat -> Option MPPayment` indexed
  by call number within one webhook processing attempt; `none` models a
  raised `requests` exception.
* Telegram side effects (send message, grant access, kick from group) are
  recorded as an ordered event trace; a `sendOk` oracle tells whether a
  `bot.send_message` call succeeds (exceptions in the sweeper are caught by
  the try/except blocks of the source, which the branching below mirrors).
* `json.loads` of the webhook body is modelled by an `Option Json` input
  (`none` = the parse raised); attribute errors raised while digging into
  the payload (`payload.get` / `data.get` on a non-dict) are modelled by
  `ExtractResult.fail`.
-/

/-- Row of the sqlite `users` table (`user_id` is the key, kept outside). -/
structure UserRec where
  firstName : Option String
  username : Option String
  status : Option String
  expiresAt : Option Int
  renewalNotified : Nat
deriving DecidableEq, Repr

/-- Row of the sqlite `payments` table (`payment_id` is the key, kept
outside).  `amount REAL` only ever holds whole-centavo values here, so it is
modelled in centavos. -/
structure PaymentRec where
  userId : Nat
  planKey : String
  amount : Int
  status : String
  createdAt : Int
  approvedAt : Option Int
  externalReference : String
deriving DecidableEq, Repr

/-- The payment object returned by the Mercado Pago `GET /v1/payments/{id}`
call, restricted to the fields `process_payment_webhook` reads. -/
structure MPPayment where
  status : String
  externalReference : String
  transactionAmount : Int
deriving DecidableEq, Repr

/-- Observable side effects of the core, in the order they are performed.
`commitExpired`/`commitRenewalNotified` are the durable database writes of
the sweeper, recorded in the trace so that commit/side-effect ordering can
be stated. -/
inductive Ev where
  | grantAccess (uid : Nat)
  | activatedMsg (uid : Nat)
  | commitExpired (uid : Nat)
  | commitRenewalNotified (uid : Nat)
  | revokeAttempt (uid : Nat)
  | expiredMsg (uid : Nat)
  | renewalMenuMsg (uid : Nat)
deriving DecidableEq, Repr

/-- The sqlite database: both tables.  A row exists iff its key is listed in
`userIds` / `payIds`; the content functions are total and only meaningful at
existing keys. -/
structure Db where
  userIds : List Nat
  userTab : Nat → UserRec
  payIds : List String
  payTab : String → PaymentRec

-- -------------------------
-- Database operations (main.py lines 127-219)
-- -------------------------

/-- `get_user` (main.py:142): SELECT of the row by primary key. -/
def get_user (db : Db) (uid : Nat) : Option UserRec :=
  if uid ∈ db.userIds then some (db.userTab uid) else none

/-- `get_payment` (main.py:200): SELECT of the row by primary key. -/
def get_payment (db : Db) (pid : String) : Option PaymentRec :=
  if pid ∈ db.payIds then some (db.payTab pid) else none

/-- `upsert_user` (main.py:127): INSERT with subquery-preserved
subscription fields, ON CONFLICT updating only `first_name`/`username`.
For a fresh row the COALESCEd subqueries give status `none`, NULL
expiry and `renewal_notified = 0`. -/
def upsert_user (db : Db) (uid : Nat) (fn un : String) : Db :=
  if uid ∈ db.userIds then
    { db with userTab := fun k =>
        if k = uid then
          { db.userTab k with firstName := some fn, username := some un }
        else db.userTab k }
  else
    { db with
      userIds := db.userIds ++ [uid],
      userTab := fun k =>
        if k = uid then ⟨some fn, some un, some "none", none, 0⟩
        else db.userTab k }

/-- `set_user_active` (main.py:152): INSERT of
`(user_id, active, expires_at, 0)` with ON CONFLICT updating those three
fields; a fresh row has NULL `first_name`/`username`. -/
def set_user_active (db : Db) (uid : Nat) (expiresAt : Int) : Db :=
  if uid ∈ db.userIds then
    { db with userTab := fun k =>
        if k = uid then
          { db.userTab k with
              status := some "active"
              expiresAt := some expiresAt
              renewalNotified := 0 }
        else db.userTab k }
  else
    { db with
      userIds := db.userIds ++ [uid],
      userTab := fun k =>
        if k = uid then ⟨none, none, some "active", some expiresAt, 0⟩
        else db.userTab k }

/-- `mark_renewal_notified` (main.py:166): UPDATE of the flag; a missing
row is untouched (SQL UPDATE matches no row). -/
def mark_renewal_notified (db : Db) (uid : Nat) : Db :=
  if uid ∈ db.userIds then
    { db with userTab := fun k =>
        if k = uid then { db.userTab k with renewalNotified := 1 }
        else db.userTab k }
  else db

/-- `set_user_expired` (main.py:173): UPDATE setting only `status`. -/
def set_user_expired (db : Db) (uid : Nat) : Db :=
  if uid ∈ db.userIds then
    { db with userTab := fun k =>
        if k = uid then { db.userTab k with status := some "expired" }
        else db.userTab k }
  else db

/-- `insert_payment` (main.py:180): INSERT OR REPLACE of the full row with
NULL `approved_at` and `created_at = utc_now()`. -/
def insert_payment (db : Db) (pid : String) (uid : Nat) (planKey : String)
    (amount : Int) (status : String) (extRef : String) (now : Int) : Db :=
  { db with
    payIds := if pid ∈ db.payIds then db.payIds else db.payIds ++ [pid],
    payTab := fun k =>
      if k = pid then ⟨uid, planKey, amount, status, now, none, extRef⟩
      else db.payTab k }

/-- `update_payment_status` (main.py:190): UPDATE of `status` and, when
given, `approved_at`; a missing row is untouched. -/
def update_payment_status (db : Db) (pid : String) (status : String)
    (approvedAt : Option Int) : Db :=
  if pid ∈ db.payIds then
    { db with payTab := fun k =>
        if k = pid then
          match approvedAt with
          | some t => { db.payTab k with status := status, approvedAt := some t }
          | none => { db.payTab k with status := status }
        else db.payTab k }
  else db

/-- Row filter of `list_active_users` (main.py:210):
`status = active AND expires_at IS NOT NULL`. -/
def isActiveRow (db : Db) (uid : Nat) : Bool :=
  (db.userTab uid).status == some "active" && ((db.userTab uid).expiresAt).isSome

/-- `list_active_users` (main.py:210): snapshot of the matching rows, taken
once before the sweeper loop runs. -/
def list_active_users (db : Db) : List (Nat × UserRec) :=
  (db.userIds.filter (isActiveRow db)).map (fun uid => (uid, db.userTab uid))

-- -------------------------
-- Plans (main.py lines 76-89)
-- -------------------------

structure Plan where
  key : String
  amountCents : Nat
  days : Nat
deriving DecidableEq, Repr

def PLANS_INICIAIS : List (String × Plan) :=
  [("1", ⟨"semanal", 1990, 7⟩), ("2", ⟨"mensal", 2990, 30⟩),
   ("3", ⟨"anual", 3990, 365⟩), ("4", ⟨"anual_promo", 2999, 365⟩)]

def PLANS_RENOVACAO_24H : List (String × Plan) :=
  [("1", ⟨"semanal_renov", 1090, 7⟩), ("2", ⟨"mensal_renov", 1590, 30⟩),
   ("3", ⟨"anual_renov", 1990, 365⟩)]

/-- `RENEWAL_WINDOW = timedelta(hours=24)` (main.py:89), in seconds. -/
def RENEWAL_WINDOW : Int := 86400

/-- `plan_days_from_key` (main.py:736): scan `PLANS_INICIAIS` then
`PLANS_RENOVACAO_24H` for a plan whose `key` matches. -/
def plan_days_from_key (planKey : String) : Option Nat :=
  match (PLANS_INICIAIS ++ PLANS_RENOVACAO_24H).find?
      (fun p => p.2.key == planKey) with
  | some p => some p.2.days
  | none => none

/-- Split a character list at every colon (kernel-reducible model of
Python `str.split` with a single-character separator). -/
def splitOnColon : List Char → List (List Char)
  | [] => [[]]
  | c :: rest =>
    let r := splitOnColon rest
    if c = ':' then [] :: r
    else
      match r with
      | [] => [[c]]
      | g :: gs => (c :: g) :: gs

/-- `s.split(":")` on a string. -/
def strSplitColon (s : String) : List String :=
  (splitOnColon s.data).map (fun cs => ⟨cs⟩)

def digitsToNatAux : Nat → List Char → Option Nat
  | acc, [] => some acc
  | acc, c :: rest =>
    if 48 ≤ c.toNat ∧ c.toNat ≤ 57 then
      digitsToNatAux (10 * acc + (c.toNat - 48)) rest
    else none

/-- Python `int(s)` on the non-negative decimal identifiers in play;
`none` models the raised `ValueError`. -/
def strToNat (s : String) : Option Nat :=
  match s.data with
  | [] => none
  | cs => digitsToNatAux 0 cs

/-- `parse_external_reference` (main.py:726): format `tg:user:plan:ts`
(at least 4 parts with head `tg`); `int(parts[1])` failing yields no
mapping. -/
def parse_external_reference (s : String) : Option (Nat × String) :=
  match strSplitColon s with
  | "tg" :: a :: b :: _ :: _ =>
    match strToNat a with
    | some uid => some (uid, b)
    | none => none
  | _ => none

-- -------------------------
-- Core flow (main.py lines 365-390)
-- -------------------------

/-- `compute_expires_at_from_plan` (main.py:365):
`utc_now() + timedelta(days=plan_days)`. -/
def compute_expires_at_from_plan (now : Int) (planDays : Nat) : Int :=
  now + 86400 * (planDays : Int)

/-- `approve_and_activate` (main.py:368): write the subscription, mark the
payment approved (when a payment id is given), then grant access and send
the activation message. -/
def approve_and_activate (db : Db) (now : Int) (uid : Nat) (planDays : Nat)
    (paymentId : Option String) : Db × List Ev :=
  let expiresAt := compute_expires_at_from_plan now planDays
  let db1 := set_user_active db uid expiresAt
  let db2 :=
    match paymentId with
    | some pid => update_payment_status db1 pid "approved" (some now)
    | none => db1
  (db2, [Ev.grantAccess uid, Ev.activatedMsg uid])

-- -------------------------
-- Webhook processing (main.py lines 678-742)
-- -------------------------

/-- ASCII lower-casing of one character, as Python `str.lower` does on the
provider status strings in play. -/
def lowerChar (c : Char) : Char :=
  if 65 ≤ c.toNat ∧ c.toNat ≤ 90 then Char.ofNat (c.toNat + 32) else c

/-- Python `str.lower` on ASCII status strings (kernel-reducible
replacement for `String.toLower`). -/
def strLower (s : String) : String := ⟨s.data.map lowerChar⟩

/-- Shared tail of `process_payment_webhook` from the `fetch_payment` call
at main.py:703 on: lower-case the authoritative status, activate on
`approved` (falling back to 30 days when the plan key is unknown,
main.py:714-715), and otherwise record the status on the payment row.
`fetched = none` models the fetch raising: the outer `except` logs and
aborts the attempt. -/
def webhook_with_record (db : Db) (now : Int) (pid : String) (uid : Nat)
    (planKey : String) (fetched : Option MPPayment) : Db × List Ev :=
  match fetched with
  | none => (db, [])
  | some mp =>
    let status := strLower mp.status
    if status = "approved" then
      let planDays := (plan_days_from_key planKey).getD 30
      approve_and_activate db now uid planDays (some pid)
    else
      (update_payment_status db pid status none, [])

/-- `process_payment_webhook` (main.py:678) with `TEST_MODE` explicit.  A
locally unknown payment is recovered through a first provider fetch and
`parse_external_reference` (empty plan key falls back to `"unknown"`, empty
provider status to `"unknown"`), inserted for tracking, and then the normal
path re-fetches the payment.  The model runs the scheduled
`approve_and_activate` task inline (main.py:747-762, with `APP_REF` set as
`main()` does). -/
def process_payment_webhook (testMode : Bool) (fetch : Nat → Option MPPayment)
    (db : Db) (now : Int) (pid : String) : Db × List Ev :=
  if testMode then (db, [])
  else
    match get_payment db pid with
    | some payment =>
      webhook_with_record db now pid payment.userId payment.planKey (fetch 0)
    | none =>
      match fetch 0 with
      | none => (db, [])
      | some mp =>
        match parse_external_reference mp.externalReference with
        | none => (db, [])
        | some (uid, planKey) =>
          let pk := if planKey = "" then "unknown" else planKey
          let st := if mp.status = "" then "unknown" else mp.status
          let db1 := insert_payment db pid uid pk mp.transactionAmount st
            mp.externalReference now
          webhook_with_record db1 now pid uid pk (fetch 1)

-- -------------------------
-- Webhook HTTP handler (main.py lines 616-676)
-- -------------------------

/-- JSON values as produced by `json.loads`. -/
inductive Json where
  | null
  | jbool (b : Bool)
  | num (n : Int)
  | str (s : String)
  | arr (elems : List Json)
  | obj (fields : List (String × Json))

/-- Python truthiness of a JSON value. -/
def Json.truthy : Json → Bool
  | .null => false
  | .jbool b => b
  | .num n => n != 0
  | .str s => s != ""
  | .arr es => !es.isEmpty
  | .obj fs => !fs.isEmpty

/-- `dict.get` on a parsed JSON object. -/
def jget (fields : List (String × Json)) (key : String) : Option Json :=
  (fields.find? (fun p => p.1 == key)).map Prod.snd

/-- `validate_mp_signature` (main.py:616).  Every control-flow path of the
source returns `True` (no secret, missing headers, digest found, and even
the mismatch path logs a warning and returns `True`), which this mirrors. -/
def validate_mp_signature (hasSecret hasSigHeaders digestPrefixInSig : Bool) :
    Bool :=
  if !hasSecret then true
  else if !hasSigHeaders then true
  else if digestPrefixInSig then true
  else true

/-- Result of the payment-id extraction inside `do_POST`: `fail` models an
exception (`payload.get` or `data.get` on a non-dict), which the except branch of the handler turns into a 500 response. -/
inductive ExtractResult where
  | fail
  | ok (idOpt : Option Json)

/-- The id extraction of `do_POST` (main.py:661-663):
`data = payload.get("data") or {}` followed by
`payment_id = data.get("id") or payload.get("id")`, dispatched only when
truthy (`if payment_id:`). -/
def extract_payment_id (payload : Json) : ExtractResult :=
  match payload with
  | .obj fields =>
    let dataRaw := (jget fields "data").getD Json.null
    let data := if dataRaw.truthy then dataRaw else Json.obj []
    match data with
    | .obj dfields =>
      let x := (jget dfields "id").getD Json.null
      let y := if x.truthy then x else (jget fields "id").getD Json.null
      ExtractResult.ok (if y.truthy then some y else none)
    | _ => ExtractResult.fail
  | _ => ExtractResult.fail

/-- HTTP response of the webhook handler together with the payment id (if
any) handed to the background reconciliation thread. -/
structure HttpResp where
  code : Nat
  dispatched : Option Json

/-- `WebhookHandler.do_POST` (main.py:647-676).  `parsedBody = none` models
`json.loads` (or the UTF-8 decode) raising; any exception reaches the
`except` branch which responds 500 with the error text.  A missing or
falsy payment id is not dispatched and still acknowledged with 200. -/
def do_POST (hasSecret hasSigHeaders digestPrefixInSig : Bool)
    (parsedBody : Option Json) : HttpResp :=
  if validate_mp_signature hasSecret hasSigHeaders digestPrefixInSig = false then
    ⟨401, none⟩
  else
    match parsedBody with
    | none => ⟨500, none⟩
    | some payload =>
      match extract_payment_id payload with
      | ExtractResult.fail => ⟨500, none⟩
      | ExtractResult.ok idOpt => ⟨200, idOpt⟩

-- -------------------------
-- Expiration / renewal sweeper (main.py lines 570-611)
-- -------------------------

/-- Body of the sweeper loop for one snapshot row (main.py:578-611).
Expired rows: commit the expired status, then attempt the group removal
(whose internal `try/except` swallows failures) and the expiry message
(wrapped in `try/except pass`).  Rows inside the renewal window with the
flag still 0: attempt the renewal menu message and, only if it succeeds,
commit `renewal_notified=1` (the `try/except` wraps both, so a send failure
skips the commit). -/
def sweepUser (now : Int) (sendOk : Nat → Bool) (acc : Db × List Ev)
    (p : Nat × UserRec) : Db × List Ev :=
  match p.2.expiresAt with
  | none => acc
  | some e =>
    if e - now ≤ 0 then
      (set_user_expired acc.1 p.1,
        acc.2 ++ [Ev.commitExpired p.1, Ev.revokeAttempt p.1, Ev.expiredMsg p.1])
    else if e - now ≤ RENEWAL_WINDOW ∧ p.2.renewalNotified = 0 then
      (if sendOk p.1 then
        (mark_renewal_notified acc.1 p.1,
          acc.2 ++ [Ev.renewalMenuMsg p.1, Ev.commitRenewalNotified p.1])
      else (acc.1, acc.2 ++ [Ev.renewalMenuMsg p.1]))
    else acc

/-- `expiration_sweeper` (main.py:570): take the active-rows snapshot once,
then process each row in order. -/
def expiration_sweeper (db : Db) (now : Int) (sendOk : Nat → Bool) :
    Db × List Ev :=
  (list_active_users db).foldl (sweepUser now sendOk) (db, [])

/-- What one sweeper iteration does to the row it touches (used to state
the sweeper characterization). -/
def sweptUser (now : Int) (ok : Bool) (u : UserRec) : UserRec :=
  match u.expiresAt with
  | none => u
  | some e =>
    if e - now ≤ 0 then { u with status := some "expired" }
    else if e - now ≤ RENEWAL_WINDOW ∧ u.renewalNotified = 0 then
      (if ok then { u with renewalNotified := 1 } else u)
    else u

/-- The ordered event block one sweeper iteration emits for a row. -/
def userBlock (now : Int) (ok : Bool) (uid : Nat) (u : UserRec) : List Ev :=
  match u.expiresAt with
  | none => []
  | some e =>
    if e - now ≤ 0 then
      [Ev.commitExpired uid, Ev.revokeAttempt uid, Ev.expiredMsg uid]
    else if e - now ≤ RENEWAL_WINDOW ∧ u.renewalNotified = 0 then
      (if ok then [Ev.renewalMenuMsg uid, Ev.commitRenewalNotified uid]
       else [Ev.renewalMenuMsg uid])
    else []

/-- Concatenation of the per-row event blocks of a sweep, in snapshot
order. -/
def sweepTrace (now : Int) (ok : Nat → Bool) : List (Nat × UserRec) → List Ev
  | [] => []
  | p :: rest => userBlock now (ok p.1) p.1 p.2 ++ sweepTrace now ok rest

-- -------------------------
-- Concrete fixtures used by witnesses and counterexamples
-- -------------------------

/-- Filler payment row for an empty payments table (content at keys not in
`payIds` is never observable). -/
def payZero : PaymentRec := ⟨0, "", 0, "", 0, none, ""⟩

/-- An already-approved monthly payment (approval instant 100, so the
stored expiry is 100 + 30 days = 2592100). -/
def payApproved : PaymentRec := ⟨7, "mensal", 2990, "approved", 0, some 100, "tg:7:mensal:1"⟩

/-- The matching active subscriber row. -/
def uAna : UserRec := ⟨some "Ana", some "ana", some "active", some 2592100, 0⟩

/-- Store state after a first successful reconciliation of payment p1. -/
def dbRedeliver : Db := ⟨[7], fun _ => uAna, ["p1"], fun _ => payApproved⟩

/-- Provider truth for payment p1: approved. -/
def mpApproved : MPPayment := ⟨"approved", "tg:7:mensal:1", 2990⟩

/-- Active subscriber whose expiry is already in the past. -/
def uPast : UserRec := ⟨none, none, some "active", some (-5), 0⟩

def dbPast : Db := ⟨[1], fun _ => uPast, [], fun _ => payZero⟩

/-- A pending renewal payment for the active subscriber. -/
def payPending : PaymentRec := ⟨7, "mensal", 2990, "pending", 0, none, "tg:7:mensal:2"⟩

def dbPending : Db := ⟨[7], fun _ => uAna, ["p2"], fun _ => payPending⟩

/-- Provider truth: the renewal payment was rejected. -/
def mpRejected : MPPayment := ⟨"Rejected", "tg:7:mensal:2", 2990⟩

/-- Active subscriber inside the renewal window at time 90 (expiry 100). -/
def uWin : UserRec := ⟨none, none, some "active", some 100, 0⟩

def dbWin : Db := ⟨[1], fun _ => uWin, [], fun _ => payZero⟩

/-- State with the subscriber but no local record of the incoming payment
(provider notifies before the insert, main.py:689). -/
def dbNoPay : Db := ⟨[7], fun _ => uAna, [], fun _ => payZero⟩

/-- Provider truth carrying a parseable external reference. -/
def mpPendingRef : MPPayment := ⟨"pending", "tg:7:mensal:9", 2990⟩

/-- Fetch oracle that succeeds on the first call of the attempt and times
out on the second. -/
def fetchOnce : Nat → Option MPPayment :=
  fun i => if i = 0 then some mpPendingRef else none

/-- A stored payment whose plan key is in neither plan table. -/
def payUnknownPlan : PaymentRec := ⟨7, "vitalicio", 5000, "pending", 0, none, "tg:7:vitalicio:3"⟩

def dbUnknownPlan : Db := ⟨[7], fun _ => uAna, ["p3"], fun _ => payUnknownPlan⟩

def mpApprovedRef3 : MPPayment := ⟨"approved", "tg:7:vitalicio:3", 5000⟩

theorem Db.eq_of_fields {a b : Db} (h1 : a.userIds = b.userIds)
    (h2 : a.userTab = b.userTab) (h3 : a.payIds = b.payIds)
    (h4 : a.payTab = b.payTab) : a = b := by
  cases a; cases b; simp_all

-- -------------------------
-- Characterization lemmas for the store operations
-- -------------------------

theorem update_payment_status_users (db : Db) (pid : String) (s : String)
    (a : Option Int) :
    (update_payment_status db pid s a).userIds = db.userIds ∧
    (update_payment_status db pid s a).userTab = db.userTab := by
  unfold update_payment_status; split <;> exact ⟨rfl, rfl⟩

theorem get_user_update_payment_status (db : Db) (pid : String) (s : String)
    (a : Option Int) (uid : Nat) :
    get_user (update_payment_status db pid s a) uid = get_user db uid := by
  unfold get_user
  rw [(update_payment_status_users db pid s a).1,
      (update_payment_status_users db pid s a).2]

theorem insert_payment_users (db : Db) (pid : String) (uid : Nat)
    (planKey : String) (amount : Int) (status extRef : String) (now : Int) :
    (insert_payment db pid uid planKey amount status extRef now).userIds
      = db.userIds ∧
    (insert_payment db pid uid planKey amount status extRef now).userTab
      = db.userTab := ⟨rfl, rfl⟩

theorem get_payment_insert_payment_other (db : Db) (pid : String) (uid : Nat)
    (planKey : String) (amount : Int) (status extRef : String) (now : Int)
    (q : String) (h : q ≠ pid) :
    get_payment (insert_payment db pid uid planKey amount status extRef now) q
      = get_payment db q := by
  unfold get_payment insert_payment
  simp only [h, if_false]
  by_cases hp : pid ∈ db.payIds
  · simp [hp]
  · simp [hp, List.mem_append, h]

theorem get_user_set_user_active_self (db : Db) (uid : Nat) (e : Int) :
    (get_user (set_user_active db uid e) uid).map
        (fun u => (u.status, u.expiresAt, u.renewalNotified))
      = some (some "active", some e, 0) := by
  unfold get_user set_user_active
  by_cases h : uid ∈ db.userIds
  · simp [h]
  · simp [h]

theorem get_user_set_user_active_other (db : Db) (uid : Nat) (e : Int)
    (v : Nat) (hv : v ≠ uid) :
    get_user (set_user_active db uid e) v = get_user db v := by
  unfold get_user set_user_active
  by_cases h : uid ∈ db.userIds
  · simp [h, hv]
  · simp [h, hv, List.mem_append]

theorem get_payment_update_payment_status_self (db : Db) (pid : String)
    (s : String) (h : pid ∈ db.payIds) :
    get_payment (update_payment_status db pid s none) pid
      = some { db.payTab pid with status := s } := by
  unfold get_payment update_payment_status
  simp [h]

theorem get_payment_update_payment_status_other (db : Db) (pid : String)
    (s : String) (a : Option Int) (q : String) (hq : q ≠ pid) :
    get_payment (update_payment_status db pid s a) q = get_payment db q := by
  unfold get_payment update_payment_status
  by_cases h : pid ∈ db.payIds
  · simp [h, hq]
  · simp [h]

-- -------------------------
-- Sweeper characterization
-- -------------------------

theorem isActiveRow_congr (d1 d2 : Db) (uid : Nat)
    (h : d1.userTab uid = d2.userTab uid) :
    isActiveRow d1 uid = isActiveRow d2 uid := by
  unfold isActiveRow; rw [h]


theorem sweepUser_eq_none (now : Int) (ok : Nat → Bool) (db : Db)
    (evs : List Ev) (w : Nat) (u : UserRec) (hu : u.expiresAt = none) :
    sweepUser now ok (db, evs) (w, u) = (db, evs) := by
  simp only [sweepUser, hu]

theorem sweepUser_eq_expired (now : Int) (ok : Nat → Bool) (db : Db)
    (evs : List Ev) (w : Nat) (u : UserRec) (e : Int)
    (hu : u.expiresAt = some e) (h1 : e - now ≤ 0) :
    sweepUser now ok (db, evs) (w, u) =
      (set_user_expired db w,
        evs ++ [Ev.commitExpired w, Ev.revokeAttempt w, Ev.expiredMsg w]) := by
  simp only [sweepUser, hu]
  rw [if_pos h1]

theorem sweepUser_eq_mark (now : Int) (ok : Nat → Bool) (db : Db)
    (evs : List Ev) (w : Nat) (u : UserRec) (e : Int)
    (hu : u.expiresAt = some e) (h1 : ¬ e - now ≤ 0)
    (h2 : e - now ≤ RENEWAL_WINDOW ∧ u.renewalNotified = 0)
    (h3 : ok w = true) :
    sweepUser now ok (db, evs) (w, u) =
      (mark_renewal_notified db w,
        evs ++ [Ev.renewalMenuMsg w, Ev.commitRenewalNotified w]) := by
  simp only [sweepUser, hu]
  rw [if_neg h1, if_pos h2, if_pos h3]

theorem sweepUser_eq_menuOnly (now : Int) (ok : Nat → Bool) (db : Db)
    (evs : List Ev) (w : Nat) (u : UserRec) (e : Int)
    (hu : u.expiresAt = some e) (h1 : ¬ e - now ≤ 0)
    (h2 : e - now ≤ RENEWAL_WINDOW ∧ u.renewalNotified = 0)
    (h3 : ¬ ok w = true) :
    sweepUser now ok (db, evs) (w, u) = (db, evs ++ [Ev.renewalMenuMsg w]) := by
  simp only [sweepUser, hu]
  rw [if_neg h1, if_pos h2, if_neg h3]

theorem sweepUser_eq_skip (now : Int) (ok : Nat → Bool) (db : Db)
    (evs : List Ev) (w : Nat) (u : UserRec) (e : Int)
    (hu : u.expiresAt = some e) (h1 : ¬ e - now ≤ 0)
    (h2 : ¬ (e - now ≤ RENEWAL_WINDOW ∧ u.renewalNotified = 0)) :
    sweepUser now ok (db, evs) (w, u) = (db, evs) := by
  simp only [sweepUser, hu]
  rw [if_neg h1, if_neg h2]

theorem sweptUser_eq_none (now : Int) (ok : Bool) (u : UserRec)
    (hu : u.expiresAt = none) : sweptUser now ok u = u := by
  simp only [sweptUser, hu]

theorem sweptUser_eq_expired (now : Int) (ok : Bool) (u : UserRec) (e : Int)
    (hu : u.expiresAt = some e) (h1 : e - now ≤ 0) :
    sweptUser now ok u = { u with status := some "expired" } := by
  simp only [sweptUser, hu]
  rw [if_pos h1]

theorem sweptUser_eq_mark (now : Int) (u : UserRec) (e : Int)
    (hu : u.expiresAt = some e) (h1 : ¬ e - now ≤ 0)
    (h2 : e - now ≤ RENEWAL_WINDOW ∧ u.renewalNotified = 0) :
    sweptUser now true u = { u with renewalNotified := 1 } := by
  simp only [sweptUser, hu]
  rw [if_neg h1, if_pos h2]
  simp

theorem sweptUser_eq_keep (now : Int) (u : UserRec) (e : Int)
    (hu : u.expiresAt = some e) (h1 : ¬ e - now ≤ 0)
    (h2 : e - now ≤ RENEWAL_WINDOW ∧ u.renewalNotified = 0) :
    sweptUser now false u = u := by
  simp only [sweptUser, hu]
  rw [if_neg h1, if_pos h2]
  simp

theorem sweptUser_eq_skip (now : Int) (ok : Bool) (u : UserRec) (e : Int)
    (hu : u.expiresAt = some e) (h1 : ¬ e - now ≤ 0)
    (h2 : ¬ (e - now ≤ RENEWAL_WINDOW ∧ u.renewalNotified = 0)) :
    sweptUser now ok u = u := by
  simp only [sweptUser, hu]
  rw [if_neg h1, if_neg h2]

theorem userBlock_eq_none (now : Int) (ok : Bool) (w : Nat) (u : UserRec)
    (hu : u.expiresAt = none) : userBlock now ok w u = [] := by
  simp only [userBlock, hu]

theorem userBlock_eq_expired (now : Int) (ok : Bool) (w : Nat) (u : UserRec)
    (e : Int) (hu : u.expiresAt = some e) (h1 : e - now ≤ 0) :
    userBlock now ok w u =
      [Ev.commitExpired w, Ev.revokeAttempt w, Ev.expiredMsg w] := by
  simp only [userBlock, hu]
  rw [if_pos h1]

theorem userBlock_eq_window (now : Int) (ok : Bool) (w : Nat) (u : UserRec)
    (e : Int) (hu : u.expiresAt = some e) (h1 : ¬ e - now ≤ 0)
    (h2 : e - now ≤ RENEWAL_WINDOW ∧ u.renewalNotified = 0) :
    userBlock now ok w u =
      (if ok then [Ev.renewalMenuMsg w, Ev.commitRenewalNotified w]
       else [Ev.renewalMenuMsg w]) := by
  simp only [userBlock, hu]
  rw [if_neg h1, if_pos h2]

theorem userBlock_eq_skip (now : Int) (ok : Bool) (w : Nat) (u : UserRec)
    (e : Int) (hu : u.expiresAt = some e) (h1 : ¬ e - now ≤ 0)
    (h2 : ¬ (e - now ≤ RENEWAL_WINDOW ∧ u.renewalNotified = 0)) :
    userBlock now ok w u = [] := by
  simp only [userBlock, hu]
  rw [if_neg h1, if_neg h2]

theorem set_user_expired_char (db : Db) (w : Nat) (hmem : w ∈ db.userIds) :
    (set_user_expired db w).userIds = db.userIds ∧
    (set_user_expired db w).payIds = db.payIds ∧
    (set_user_expired db w).payTab = db.payTab ∧
    ∀ uid, (set_user_expired db w).userTab uid =
      if uid = w then { db.userTab uid with status := some "expired" }
      else db.userTab uid := by
  unfold set_user_expired
  rw [if_pos hmem]
  exact ⟨rfl, rfl, rfl, fun uid => rfl⟩

theorem mark_renewal_notified_char (db : Db) (w : Nat) (hmem : w ∈ db.userIds) :
    (mark_renewal_notified db w).userIds = db.userIds ∧
    (mark_renewal_notified db w).payIds = db.payIds ∧
    (mark_renewal_notified db w).payTab = db.payTab ∧
    ∀ uid, (mark_renewal_notified db w).userTab uid =
      if uid = w then { db.userTab uid with renewalNotified := 1 }
      else db.userTab uid := by
  unfold mark_renewal_notified
  rw [if_pos hmem]
  exact ⟨rfl, rfl, rfl, fun uid => rfl⟩

theorem sweepUser_char (now : Int) (ok : Nat → Bool) (db : Db) (evs : List Ev)
    (w : Nat) (u : UserRec) (hmem : w ∈ db.userIds) (htab : db.userTab w = u) :
    (sweepUser now ok (db, evs) (w, u)).1.userIds = db.userIds ∧
    (sweepUser now ok (db, evs) (w, u)).1.payIds = db.payIds ∧
    (sweepUser now ok (db, evs) (w, u)).1.payTab = db.payTab ∧
    (∀ uid, (sweepUser now ok (db, evs) (w, u)).1.userTab uid =
        if uid = w then sweptUser now (ok uid) (db.userTab uid)
        else db.userTab uid) ∧
    (sweepUser now ok (db, evs) (w, u)).2 = evs ++ userBlock now (ok w) w u := by
  cases hu : u.expiresAt with
  | none =>
    rw [sweepUser_eq_none now ok db evs w u hu,
        userBlock_eq_none now (ok w) w u hu]
    refine ⟨rfl, rfl, rfl, ?_, by simp⟩
    intro uid
    by_cases h : uid = w
    · subst h
      rw [if_pos rfl]
      show db.userTab uid = _
      rw [htab, sweptUser_eq_none now (ok uid) u hu]
    · rw [if_neg h]
  | some e =>
    by_cases h1 : e - now ≤ 0
    · rw [sweepUser_eq_expired now ok db evs w u e hu h1,
          userBlock_eq_expired now (ok w) w u e hu h1]
      obtain ⟨c1, c2, c3, c4⟩ := set_user_expired_char db w hmem
      refine ⟨c1, c2, c3, ?_, rfl⟩
      intro uid
      rw [c4 uid]
      by_cases h : uid = w
      · subst h
        rw [if_pos rfl, if_pos rfl, htab,
            sweptUser_eq_expired now (ok uid) u e hu h1]
      · rw [if_neg h, if_neg h]
    · by_cases h2 : e - now ≤ RENEWAL_WINDOW ∧ u.renewalNotified = 0
      · by_cases h3 : ok w = true
        · rw [sweepUser_eq_mark now ok db evs w u e hu h1 h2 h3,
              userBlock_eq_window now (ok w) w u e hu h1 h2, if_pos h3]
          obtain ⟨c1, c2, c3, c4⟩ := mark_renewal_notified_char db w hmem
          refine ⟨c1, c2, c3, ?_, rfl⟩
          intro uid
          rw [c4 uid]
          by_cases h : uid = w
          · subst h
            rw [if_pos rfl, if_pos rfl, htab, h3,
                sweptUser_eq_mark now u e hu h1 h2]
          · rw [if_neg h, if_neg h]
        · rw [sweepUser_eq_menuOnly now ok db evs w u e hu h1 h2 h3,
              userBlock_eq_window now (ok w) w u e hu h1 h2,
              if_neg h3]
          refine ⟨rfl, rfl, rfl, ?_, rfl⟩
          intro uid
          by_cases h : uid = w
          · subst h
            rw [if_pos rfl]
            show db.userTab uid = _
            have hok : ok uid = false := by
              cases hy : ok uid
              · rfl
              · exact absurd hy h3
            rw [htab, hok, sweptUser_eq_keep now u e hu h1 h2]
          · rw [if_neg h]
      · rw [sweepUser_eq_skip now ok db evs w u e hu h1 h2,
            userBlock_eq_skip now (ok w) w u e hu h1 h2]
        refine ⟨rfl, rfl, rfl, ?_, by simp⟩
        intro uid
        by_cases h : uid = w
        · subst h
          rw [if_pos rfl]
          show db.userTab uid = _
          rw [htab, sweptUser_eq_skip now (ok uid) u e hu h1 h2]
        · rw [if_neg h]

theorem sweep_foldl_char (now : Int) (ok : Nat → Bool)
    (L : List (Nat × UserRec)) :
    ∀ (db : Db) (evs : List Ev),
      (∀ p ∈ L, p.1 ∈ db.userIds ∧ db.userTab p.1 = p.2) →
      (L.map Prod.fst).Nodup →
      (L.foldl (sweepUser now ok) (db, evs)).1.userIds = db.userIds ∧
      (L.foldl (sweepUser now ok) (db, evs)).1.payIds = db.payIds ∧
      (L.foldl (sweepUser now ok) (db, evs)).1.payTab = db.payTab ∧
      (∀ uid, (L.foldl (sweepUser now ok) (db, evs)).1.userTab uid =
          if uid ∈ L.map Prod.fst then sweptUser now (ok uid) (db.userTab uid)
          else db.userTab uid) ∧
      (L.foldl (sweepUser now ok) (db, evs)).2 = evs ++ sweepTrace now ok L := by
  induction L with
  | nil =>
    intro db evs _ _
    refine ⟨rfl, rfl, rfl, ?_, by simp [sweepTrace]⟩
    intro uid
    simp [List.foldl]
  | cons p L ih =>
    obtain ⟨w, u⟩ := p
    intro db evs hmatch hnd
    obtain ⟨hmem, htab⟩ := hmatch (w, u) (List.mem_cons_self _ _)
    obtain ⟨c1, c2, c3, c4, c5⟩ := sweepUser_char now ok db evs w u hmem htab
    simp only [List.map_cons] at hnd
    have hpn : w ∉ L.map Prod.fst := (List.nodup_cons.mp hnd).1
    have hnd' : (L.map Prod.fst).Nodup := (List.nodup_cons.mp hnd).2
    have hmatch' : ∀ q ∈ L,
        q.1 ∈ (sweepUser now ok (db, evs) (w, u)).1.userIds ∧
        (sweepUser now ok (db, evs) (w, u)).1.userTab q.1 = q.2 := by
      intro q hq
      have hq1 : q.1 ∈ L.map Prod.fst := List.mem_map_of_mem Prod.fst hq
      have hneq : q.1 ≠ w := fun hEq => hpn (hEq ▸ hq1)
      obtain ⟨hqmem, hqtab⟩ := hmatch q (List.mem_cons_of_mem _ hq)
      exact ⟨c1 ▸ hqmem, by rw [c4 q.1, if_neg hneq]; exact hqtab⟩
    obtain ⟨i1, i2, i3, i4, i5⟩ :=
      ih (sweepUser now ok (db, evs) (w, u)).1
        (sweepUser now ok (db, evs) (w, u)).2 hmatch' hnd'
    refine ⟨i1.trans c1, i2.trans c2, i3.trans c3, ?_, ?_⟩
    · intro uid
      refine (i4 uid).trans ?_
      rw [c4 uid]
      by_cases h : uid = w
      · subst h
        rw [if_pos rfl, if_neg hpn, List.map_cons,
          if_pos (List.mem_cons_self _ _)]
      · rw [if_neg h, List.map_cons]
        by_cases hm : uid ∈ L.map Prod.fst
        · rw [if_pos hm, if_pos (List.mem_cons_of_mem _ hm)]
        · rw [if_neg hm, if_neg (by simp [List.mem_cons, h, hm])]
    · refine i5.trans ?_
      rw [c5, List.append_assoc]
      rfl

theorem list_active_users_match (db : Db) :
    ∀ p ∈ list_active_users db, p.1 ∈ db.userIds ∧ db.userTab p.1 = p.2 := by
  intro p hp
  unfold list_active_users at hp
  simp only [List.mem_map] at hp
  obtain ⟨uid, hmemf, rfl⟩ := hp
  rw [List.mem_filter] at hmemf
  exact ⟨hmemf.1, rfl⟩

theorem list_active_users_keys (db : Db) :
    (list_active_users db).map Prod.fst
      = db.userIds.filter (isActiveRow db) := by
  unfold list_active_users
  rw [List.map_map]
  have hcomp : (Prod.fst ∘ fun uid : Nat => (uid, db.userTab uid)) = id := rfl
  rw [hcomp, List.map_id]

theorem list_active_users_nodup (db : Db) (h : db.userIds.Nodup) :
    ((list_active_users db).map Prod.fst).Nodup := by
  rw [list_active_users_keys]
  exact h.filter _

/-- Full characterization of one sweeper run: the payments table and the
set of user rows are untouched, each row is rewritten by `sweptUser`
exactly when it was in the active snapshot, and the event trace is the
concatenation of the per-row blocks in snapshot order. -/
theorem expiration_sweeper_char (db : Db) (now : Int) (ok : Nat → Bool)
    (h : db.userIds.Nodup) :
    (expiration_sweeper db now ok).1.userIds = db.userIds ∧
    (expiration_sweeper db now ok).1.payIds = db.payIds ∧
    (expiration_sweeper db now ok).1.payTab = db.payTab ∧
    (∀ uid, (expiration_sweeper db now ok).1.userTab uid =
        if uid ∈ db.userIds.filter (isActiveRow db) then
          sweptUser now (ok uid) (db.userTab uid)
        else db.userTab uid) ∧
    (expiration_sweeper db now ok).2
      = sweepTrace now ok (list_active_users db) := by
  have hc := sweep_foldl_char now ok (list_active_users db) db []
    (list_active_users_match db) (list_active_users_nodup db h)
  rw [list_active_users_keys] at hc
  unfold expiration_sweeper
  obtain ⟨c1, c2, c3, c4, c5⟩ := hc
  exact ⟨c1, c2, c3, c4, by rw [c5]; simp⟩

theorem swept_settled (now : Int) (okb : Bool) (w : Nat) (u : UserRec)
    (h : ∀ e, u.expiresAt = some e →
      ¬ e - now ≤ 0 ∧ ¬ (e - now ≤ RENEWAL_WINDOW ∧ u.renewalNotified = 0)) :
    sweptUser now okb u = u ∧ userBlock now okb w u = [] := by
  cases hu : u.expiresAt with
  | none =>
    exact ⟨sweptUser_eq_none now okb u hu, userBlock_eq_none now okb w u hu⟩
  | some e =>
    obtain ⟨h1, h2⟩ := h e hu
    exact ⟨sweptUser_eq_skip now okb u e hu h1 h2,
      userBlock_eq_skip now okb w u e hu h1 h2⟩

theorem sweepTrace_eq_nil (now : Int) (ok : Nat → Bool)
    (L : List (Nat × UserRec))
    (h : ∀ p ∈ L, userBlock now (ok p.1) p.1 p.2 = []) :
    sweepTrace now ok L = [] := by
  induction L with
  | nil => rfl
  | cons p L ih =>
    rw [sweepTrace, h p (List.mem_cons_self _ _),
      ih (fun q hq => h q (List.mem_cons_of_mem _ hq))]
    rfl

/-- After a sweep in which every notification succeeded, every row that is
still in the active snapshot is settled for this tick: its expiry is in the
future and, when inside the renewal window, its flag is already set. -/
theorem sweeper_result_settled (db : Db) (now : Int) (h : db.userIds.Nodup)
    (uid : Nat) (hmem : uid ∈ db.userIds)
    (hact : isActiveRow (expiration_sweeper db now (fun _ => true)).1 uid
      = true) :
    ∀ e, ((expiration_sweeper db now (fun _ => true)).1.userTab uid).expiresAt
        = some e →
      ¬ e - now ≤ 0 ∧
      ¬ (e - now ≤ RENEWAL_WINDOW ∧
        ((expiration_sweeper db now (fun _ => true)).1.userTab uid).renewalNotified
          = 0) := by
  intro e he
  obtain ⟨c1, c2, c3, c4, c5⟩ := expiration_sweeper_char db now (fun _ => true) h
  by_cases hf : uid ∈ db.userIds.filter (isActiveRow db)
  · have htab : (expiration_sweeper db now (fun _ => true)).1.userTab uid
        = sweptUser now true (db.userTab uid) := by
      rw [c4 uid, if_pos hf]
    have hfa := (List.mem_filter.mp hf).2
    rw [isActiveRow, Bool.and_eq_true, beq_iff_eq, Option.isSome_iff_exists]
      at hfa
    obtain ⟨hstat, e0, he0⟩ := hfa
    by_cases g1 : e0 - now ≤ 0
    · exfalso
      rw [isActiveRow, htab,
        sweptUser_eq_expired now true (db.userTab uid) e0 he0 g1] at hact
      simp at hact
    · by_cases g2 : e0 - now ≤ RENEWAL_WINDOW ∧ (db.userTab uid).renewalNotified = 0
      · rw [htab, sweptUser_eq_mark now (db.userTab uid) e0 he0 g1 g2] at he ⊢
        have hee : e = e0 := by
          simp only [UserRec.expiresAt] at he
          rw [he0] at he
          exact (Option.some_inj.mp he).symm
        subst hee
        refine ⟨g1, ?_⟩
        rintro ⟨_, habs⟩
        simp at habs
      · rw [htab, sweptUser_eq_skip now true (db.userTab uid) e0 he0 g1 g2]
          at he ⊢
        have hee : e = e0 := by
          rw [he0] at he
          exact (Option.some_inj.mp he).symm
        subst hee
        exact ⟨g1, g2⟩
  · exfalso
    have htab : (expiration_sweeper db now (fun _ => true)).1.userTab uid
        = db.userTab uid := by
      rw [c4 uid, if_neg hf]
    have hcongr := isActiveRow_congr (expiration_sweeper db now (fun _ => true)).1
      db uid htab
    exact hf (List.mem_filter.mpr ⟨hmem, by rw [← hcongr]; exact hact⟩)

theorem get_user_eq_some (db : Db) (uid : Nat) (u : UserRec)
    (h : get_user db uid = some u) :
    uid ∈ db.userIds ∧ db.userTab uid = u := by
  unfold get_user at h
  by_cases hm : uid ∈ db.userIds
  · rw [if_pos hm] at h
    exact ⟨hm, Option.some_inj.mp h⟩
  · rw [if_neg hm] at h
    exact absurd h (by simp)

theorem get_payment_eq_some (db : Db) (pid : String) (pay : PaymentRec)
    (h : get_payment db pid = some pay) :
    pid ∈ db.payIds ∧ db.payTab pid = pay := by
  unfold get_payment at h
  by_cases hm : pid ∈ db.payIds
  · rw [if_pos hm] at h
    exact ⟨hm, Option.some_inj.mp h⟩
  · rw [if_neg hm] at h
    exact absurd h (by simp)

theorem update_payment_status_payIds (db : Db) (pid : String) (s : String)
    (a : Option Int) : (update_payment_status db pid s a).payIds = db.payIds := by
  unfold update_payment_status; split <;> rfl

/-- What `approve_and_activate` guarantees: the user row is active with
expiry computed from the approval instant and the plan duration alone, the
grant/notify side effects fire, and no other user row changes. -/
theorem approve_and_activate_char (db : Db) (now : Int) (uid : Nat)
    (planDays : Nat) (pid : Option String) :
    (get_user (approve_and_activate db now uid planDays pid).1 uid).map
        (fun u => (u.status, u.expiresAt, u.renewalNotified))
      = some (some "active", some (compute_expires_at_from_plan now planDays), 0) ∧
    (approve_and_activate db now uid planDays pid).2
      = [Ev.grantAccess uid, Ev.activatedMsg uid] ∧
    (∀ v, v ≠ uid →
      get_user (approve_and_activate db now uid planDays pid).1 v
        = get_user db v) := by
  cases pid with
  | none =>
    refine ⟨get_user_set_user_active_self db uid _, rfl, ?_⟩
    intro v hv
    exact get_user_set_user_active_other db uid _ v hv
  | some p =>
    refine ⟨?_, rfl, ?_⟩
    · show (get_user (update_payment_status
          (set_user_active db uid (compute_expires_at_from_plan now planDays))
          p "approved" (some now)) uid).map
          (fun u => (u.status, u.expiresAt, u.renewalNotified)) = _
      rw [get_user_update_payment_status]
      exact get_user_set_user_active_self db uid _
    · intro v hv
      show get_user (update_payment_status
          (set_user_active db uid (compute_expires_at_from_plan now planDays))
          p "approved" (some now)) v = _
      rw [get_user_update_payment_status]
      exact get_user_set_user_active_other db uid _ v hv

-- -------------------------
-- Claim theorems
-- -------------------------

/-- Claim C1 (code-bug evidence): `process_payment_webhook` never consults
the stored `PaymentRecord.status` before acting, so a redelivered
`approved` notification for a payment that is already stored as `approved`
re-runs the full activation: the grant-access and approval messages fire a
second time and the subscription expiry is rewritten from the redelivery
instant (200 + 30 days) instead of being left at the stored value
(100 + 30 days).  This evaluates the code at that failing input. -/
theorem webhook_redelivery_not_idempotent :
    (process_payment_webhook false (fun _ => some mpApproved) dbRedeliver 200
        "p1").2
      = [Ev.grantAccess 7, Ev.activatedMsg 7] ∧
    (get_user (process_payment_webhook false (fun _ => some mpApproved)
        dbRedeliver 200 "p1").1 7).map UserRec.expiresAt
      = some (some 2592200) ∧
    (get_user dbRedeliver 7).map UserRec.expiresAt = some (some 2592100) := by
  decide

/-- Claim C2 counterexample: the sweeper transitions the row of user 1
(active, expiry -5, swept at time 0) to `expired`, but `expires_at` is
still the stale non-null value -5 afterwards — the claim says it must be
null.  (The row has no plan or renewal-offer column at all.) -/
theorem set_user_expired_keeps_expires_at_cex :
    get_user (expiration_sweeper dbPast 0 (fun _ => true)).1 1
      = some ⟨none, none, some "expired", some (-5), 0⟩ := by
  decide

/-- Claim C2 (amended): when the sweeper retires an active row whose expiry
has elapsed, it sets only the status field to expired; every other field,
including the (past) `expires_at` and the renewal-notified flag, is kept
unchanged. -/
theorem sweeper_expiry_sets_only_status (db : Db) (now : Int)
    (sendOk : Nat → Bool) (uid : Nat) (u : UserRec) (e : Int)
    (hnd : db.userIds.Nodup)
    (hu : get_user db uid = some u)
    (hact : u.status = some "active")
    (he : u.expiresAt = some e)
    (hexp : e - now ≤ 0) :
    get_user (expiration_sweeper db now sendOk).1 uid
      = some { u with status := some "expired" } ∧
    ({ u with status := some "expired" } : UserRec).expiresAt = some e := by
  obtain ⟨hmem, htab⟩ := get_user_eq_some db uid u hu
  obtain ⟨c1, c2, c3, c4, c5⟩ := expiration_sweeper_char db now sendOk hnd
  have hf : uid ∈ db.userIds.filter (isActiveRow db) :=
    List.mem_filter.mpr ⟨hmem, by simp [isActiveRow, htab, hact, he]⟩
  refine ⟨?_, by rw [UserRec.expiresAt]; exact he⟩
  unfold get_user
  rw [if_pos (by rw [c1]; exact hmem), c4 uid, if_pos hf, htab,
    sweptUser_eq_expired now (sendOk uid) u e he hexp]

/-- Claim C2 amended-theorem witness at a concrete store. -/
theorem sweeper_expiry_sets_only_status_witness :
    get_user (expiration_sweeper dbPast 0 (fun _ => true)).1 1
      = some { uPast with status := some "expired" } ∧
    ({ uPast with status := some "expired" } : UserRec).expiresAt
      = some (-5) :=
  sweeper_expiry_sets_only_status dbPast 0 (fun _ => true) 1 uPast (-5)
    (by decide) (by decide) rfl rfl (by decide)

/-- Claim C3 counterexample: a request whose body is malformed JSON
(`json.loads` raises), and one whose body is valid JSON but not an object
(`payload.get` raises), are both answered 500 with the exception text —
not the claimed 200 — even though neither crashes the process (the
except branch of the handler catches and responds). -/
theorem webhook_malformed_body_returns_500 :
    (do_POST false false false none).code = 500 ∧
    (do_POST false false false (some (Json.arr []))).code = 500 :=
  ⟨rfl, rfl⟩

/-- Claim C3 (amended): for a body that parses to a JSON object on which
the id extraction does not raise (its truthy `data` value, if any, is an
object), the handler replies 200 with the minimal `ok` body; a missing or
falsy payment id is a logged no-op (nothing is dispatched) and still gets
200.  Malformed JSON, non-object payloads, or a truthy non-object `data`
are answered 500 with the exception text. -/
theorem webhook_parsed_object_returns_200 (s h d : Bool) (payload : Json)
    (idOpt : Option Json)
    (hex : extract_payment_id payload = ExtractResult.ok idOpt) :
    do_POST s h d (some payload) = ⟨200, idOpt⟩ := by
  have hv : validate_mp_signature s h d = true := by
    cases s <;> cases h <;> cases d <;> rfl
  simp only [do_POST, hv, hex]
  rfl

/-- Claim C3 amended-theorem witness: an object body without any id is
acknowledged 200 and dispatches nothing; an object body with a nested
`data.id` is acknowledged 200 and dispatches that id. -/
theorem webhook_parsed_object_returns_200_witness :
    do_POST true true false (some (Json.obj [])) = ⟨200, none⟩ ∧
    do_POST false false false
        (some (Json.obj [("data", Json.obj [("id", Json.str "123")])]))
      = ⟨200, some (Json.str "123")⟩ :=
  ⟨webhook_parsed_object_returns_200 true true false (Json.obj []) none rfl,
   webhook_parsed_object_returns_200 false false false
     (Json.obj [("data", Json.obj [("id", Json.str "123")])])
     (some (Json.str "123")) rfl⟩

/-- Claim C4: every activation computes the new expiry as the approval
instant plus the plan duration.  The conclusion holds for every prior
store state, so in particular a renewal approved at `now` while an active
subscription with a later stored expiry `T` exists gets
`now + plan_duration`, never `T + plan_duration`: remaining time is
replaced, not stacked. -/
theorem approve_sets_expiry_from_approval_instant (db : Db) (now : Int)
    (uid : Nat) (planDays : Nat) (pid : Option String) :
    (get_user (approve_and_activate db now uid planDays pid).1 uid).map
        (fun u => (u.status, u.expiresAt, u.renewalNotified))
      = some (some "active", some (now + 86400 * (planDays : Int)), 0) := by
  have h := (approve_and_activate_char db now uid planDays pid).1
  rw [compute_expires_at_from_plan] at h
  exact h

/-- Claim C5: when the authoritative provider status is `rejected` or
`cancelled`, reconciliation rewrites only the status field of the stored payment; the users table (every row) and every other payment row are left
entirely unchanged and no side effect fires. -/
theorem rejected_payment_leaves_subscription_untouched (db : Db)
    (fetch : Nat → Option MPPayment) (now : Int) (pid : String)
    (pay : PaymentRec) (mp : MPPayment)
    (hpay : get_payment db pid = some pay)
    (hfetch : fetch 0 = some mp)
    (hst : strLower mp.status = "rejected" ∨ strLower mp.status = "cancelled") :
    (process_payment_webhook false fetch db now pid).1.userIds = db.userIds ∧
    (process_payment_webhook false fetch db now pid).1.userTab = db.userTab ∧
    (process_payment_webhook false fetch db now pid).2 = [] ∧
    (process_payment_webhook false fetch db now pid).1.payIds = db.payIds ∧
    (∀ q, q ≠ pid →
      get_payment (process_payment_webhook false fetch db now pid).1 q
        = get_payment db q) ∧
    get_payment (process_payment_webhook false fetch db now pid).1 pid
      = some { pay with status := strLower mp.status } := by
  have hne : ¬ strLower mp.status = "approved" := by
    rcases hst with h | h <;> rw [h] <;> decide
  obtain ⟨hmem, htab⟩ := get_payment_eq_some db pid pay hpay
  have heq : process_payment_webhook false fetch db now pid
      = (update_payment_status db pid (strLower mp.status) none, []) := by
    simp only [process_payment_webhook, hpay, webhook_with_record, hfetch]
    rw [if_neg hne]
    rfl
  rw [heq]
  refine ⟨(update_payment_status_users db pid _ none).1,
    (update_payment_status_users db pid _ none).2, rfl,
    update_payment_status_payIds db pid _ none, ?_, ?_⟩
  · intro q hq
    exact get_payment_update_payment_status_other db pid _ none q hq
  · rw [get_payment_update_payment_status_self db pid _ hmem, htab]

/-- Claim C5 witness: a concrete rejected renewal for an active
subscriber leaves the user row untouched and only flips the payment
status. -/
theorem rejected_payment_leaves_subscription_untouched_witness :
    (process_payment_webhook false (fun _ => some mpRejected) dbPending 50
        "p2").1.userTab
      = dbPending.userTab ∧
    (process_payment_webhook false (fun _ => some mpRejected) dbPending 50
        "p2").2 = [] ∧
    get_payment (process_payment_webhook false (fun _ => some mpRejected)
        dbPending 50 "p2").1 "p2"
      = some { payPending with status := "rejected" } := by
  have h := rejected_payment_leaves_subscription_untouched dbPending
    (fun _ => some mpRejected) 50 "p2" payPending mpRejected (by decide) rfl
    (Or.inl (by decide))
  exact ⟨h.2.1, h.2.2.1, by rw [h.2.2.2.2.2]; decide⟩

/-- Claim C6: with all notification sends succeeding, running the sweeper
a second time at the same instant is a complete no-op: the store is
unchanged and the second run emits no events at all — users moved to
`expired` have left the active snapshot, and rows whose renewal flag was
set are skipped by the flag guard and never reset. -/
theorem sweeper_idempotent_per_tick (db : Db) (now : Int)
    (hnd : db.userIds.Nodup) :
    expiration_sweeper (expiration_sweeper db now (fun _ => true)).1 now
        (fun _ => true)
      = ((expiration_sweeper db now (fun _ => true)).1, []) := by
  obtain ⟨c1, c2, c3, c4, c5⟩ :=
    expiration_sweeper_char db now (fun _ => true) hnd
  have hnd1 : (expiration_sweeper db now (fun _ => true)).1.userIds.Nodup := by
    rw [c1]; exact hnd
  obtain ⟨e1, e2, e3, e4, e5⟩ :=
    expiration_sweeper_char (expiration_sweeper db now (fun _ => true)).1 now
      (fun _ => true) hnd1
  have hset : ∀ uid ∈ (expiration_sweeper db now (fun _ => true)).1.userIds.filter
      (isActiveRow (expiration_sweeper db now (fun _ => true)).1),
      sweptUser now true
          ((expiration_sweeper db now (fun _ => true)).1.userTab uid)
        = (expiration_sweeper db now (fun _ => true)).1.userTab uid := by
    intro uid hf
    obtain ⟨hm1, hact⟩ := List.mem_filter.mp hf
    have hmem : uid ∈ db.userIds := by rw [← c1]; exact hm1
    exact (swept_settled now true uid _
      (sweeper_result_settled db now hnd uid hmem hact)).1
  have hblocks : ∀ p ∈ list_active_users
      (expiration_sweeper db now (fun _ => true)).1,
      userBlock now ((fun _ : Nat => true) p.1) p.1 p.2 = [] := by
    intro p hp
    obtain ⟨hm1, htab⟩ :=
      list_active_users_match (expiration_sweeper db now (fun _ => true)).1 p hp
    have hk : p.1 ∈ (expiration_sweeper db now (fun _ => true)).1.userIds.filter
        (isActiveRow (expiration_sweeper db now (fun _ => true)).1) := by
      rw [← list_active_users_keys]
      exact List.mem_map_of_mem Prod.fst hp
    obtain ⟨_, hact⟩ := List.mem_filter.mp hk
    have hmem : p.1 ∈ db.userIds := by rw [← c1]; exact hm1
    have hb := (swept_settled now true p.1 _
      (sweeper_result_settled db now hnd p.1 hmem hact)).2
    rw [htab] at hb
    exact hb
  have hev : (expiration_sweeper (expiration_sweeper db now (fun _ => true)).1
      now (fun _ => true)).2 = [] := by
    rw [e5]
    exact sweepTrace_eq_nil now (fun _ => true) _ hblocks
  have hst : (expiration_sweeper (expiration_sweeper db now (fun _ => true)).1
      now (fun _ => true)).1 = (expiration_sweeper db now (fun _ => true)).1 := by
    apply Db.eq_of_fields
    · exact e1
    · funext uid
      rw [e4 uid]
      by_cases hf : uid ∈ (expiration_sweeper db now (fun _ => true)).1.userIds.filter
          (isActiveRow (expiration_sweeper db now (fun _ => true)).1)
      · rw [if_pos hf]
        exact hset uid hf
      · rw [if_neg hf]
    · exact e2
    · exact e3
  exact Prod.ext hst hev

/-- Claim C6 witness: concrete store with one user inside the renewal
window; the second sweep at the same instant changes nothing and sends
nothing. -/
theorem sweeper_idempotent_per_tick_witness :
    expiration_sweeper (expiration_sweeper dbWin 90 (fun _ => true)).1 90
        (fun _ => true)
      = ((expiration_sweeper dbWin 90 (fun _ => true)).1, []) :=
  sweeper_idempotent_per_tick dbWin 90 (by decide)

/-- Claim C7 counterexample: for a user inside the renewal window the
sweeper attempts the notification first and commits the flag only
afterwards — with a failing send the trace contains the notification
attempt and no commit, and the flag transition that was due is not
committed at all (the row is unchanged); with a succeeding send the
commit event comes strictly after the attempt.  This refutes "the per-user
state transition is durably committed before the corresponding side
effect is attempted" for the renewal-window branch. -/
theorem renewal_notify_attempt_precedes_flag_commit_cex :
    (expiration_sweeper dbWin 90 (fun _ => false)).2 = [Ev.renewalMenuMsg 1] ∧
    get_user (expiration_sweeper dbWin 90 (fun _ => false)).1 1 = some uWin ∧
    (expiration_sweeper dbWin 90 (fun _ => true)).2
      = [Ev.renewalMenuMsg 1, Ev.commitRenewalNotified 1] := by
  decide

/-- Claim C7 (amended): the trace of the sweep is exactly the concatenation of
independent per-row blocks in snapshot order, and the final store rewrites
each snapshotted row independently.  Reading off `userBlock`: for an
expired row the `commitExpired` write comes first, before the revoke and
notify attempts, and failures of those attempts change nothing (the block
and the row rewrite do not depend on `sendOk`); for a renewal-window row
the notification attempt comes first and `commitRenewalNotified` is
appended only when the send for that row succeeds.  The block and rewrite of each row
depend only on the `sendOk` value of that row, and every snapshot row
is processed, so a failure for one user neither rolls back nor fabricates
a transition of another and never aborts the sweep. -/
theorem sweeper_commit_order_and_isolation (db : Db) (now : Int)
    (sendOk : Nat → Bool) (hnd : db.userIds.Nodup) :
    (expiration_sweeper db now sendOk).2
      = sweepTrace now sendOk (list_active_users db) ∧
    (∀ uid, (expiration_sweeper db now sendOk).1.userTab uid =
        if uid ∈ db.userIds.filter (isActiveRow db) then
          sweptUser now (sendOk uid) (db.userTab uid)
        else db.userTab uid) ∧
    (expiration_sweeper db now sendOk).1.userIds = db.userIds := by
  obtain ⟨c1, _, _, c4, c5⟩ := expiration_sweeper_char db now sendOk hnd
  exact ⟨c5, c4, c1⟩

/-- Claim C7 amended-theorem witness at a concrete store with a failing
send. -/
theorem sweeper_commit_order_and_isolation_witness :
    (expiration_sweeper dbWin 90 (fun _ => false)).2
      = sweepTrace 90 (fun _ => false) (list_active_users dbWin) ∧
    (expiration_sweeper dbWin 90 (fun _ => false)).1.userTab 1
      = (if 1 ∈ dbWin.userIds.filter (isActiveRow dbWin) then
          sweptUser 90 false (dbWin.userTab 1) else dbWin.userTab 1) := by
  have h := sweeper_commit_order_and_isolation dbWin 90 (fun _ => false)
    (by decide)
  exact ⟨h.1, h.2.1 1⟩

/-- Claim C8 counterexample: the payment is locally unknown; the recovery
fetch succeeds, the payment row is inserted for tracking, and then the
second fetch of the same attempt fails — the attempt aborts, but a payment
write from this very attempt remains, refuting the claimed absence of
any mid-attempt write.  (The subscription store is still untouched and the
failure itself is not recorded as rejected.) -/
theorem fetch_failure_after_recovery_insert_cex :
    get_payment (process_payment_webhook false fetchOnce dbNoPay 300 "q").1 "q"
      = some ⟨7, "mensal", 2990, "pending", 300, none, "tg:7:mensal:9"⟩ ∧
    fetchOnce 1 = none ∧
    get_payment dbNoPay "q" = none := by
  decide

/-- Claim C8 (amended): a failing provider fetch aborts the attempt with
no write to the subscription store, no event, and no recording of the
failure as any payment status: if the first fetch of the attempt fails the
attempt is a complete no-op, and if the payment was locally unknown and
only the post-recovery fetch fails, the only surviving write is the
recovered payment row inserted (with the provider-reported status) before
the failure; every other payment row is untouched, so a later retry can
still converge. -/
theorem fetch_failure_aborts_without_subscription_writes (db : Db)
    (fetch : Nat → Option MPPayment) (now : Int) (pid : String) :
    (fetch 0 = none → process_payment_webhook false fetch db now pid
      = (db, [])) ∧
    (get_payment db pid = none → fetch 1 = none →
      (process_payment_webhook false fetch db now pid).1.userIds = db.userIds ∧
      (process_payment_webhook false fetch db now pid).1.userTab = db.userTab ∧
      (process_payment_webhook false fetch db now pid).2 = [] ∧
      (∀ q, q ≠ pid →
        get_payment (process_payment_webhook false fetch db now pid).1 q
          = get_payment db q)) := by
  constructor
  · intro h0
    cases hpay : get_payment db pid with
    | some pay =>
      simp only [process_payment_webhook, hpay, webhook_with_record, h0]
      rfl
    | none =>
      simp only [process_payment_webhook, hpay, h0]
      rfl
  · intro hpay h1
    cases h0 : fetch 0 with
    | none =>
      simp only [process_payment_webhook, hpay, h0]
      exact ⟨rfl, rfl, rfl, fun q _ => rfl⟩
    | some mp =>
      cases href : parse_external_reference mp.externalReference with
      | none =>
        simp only [process_payment_webhook, hpay, h0, href]
        exact ⟨rfl, rfl, rfl, fun q _ => rfl⟩
      | some pr =>
        obtain ⟨uid, planKey⟩ := pr
        simp only [process_payment_webhook, hpay, h0, href,
          webhook_with_record, h1]
        refine ⟨rfl, rfl, rfl, ?_⟩
        intro q hq
        exact get_payment_insert_payment_other db pid uid _ _ _ _ now q hq

/-- Claim C8 amended-theorem witness: a first-call timeout is a complete
no-op, and a second-call timeout in the recovery path leaves users,
events and unrelated payments untouched. -/
theorem fetch_failure_aborts_without_subscription_writes_witness :
    process_payment_webhook false (fun _ => none) dbPending 50 "p2"
      = (dbPending, []) ∧
    (process_payment_webhook false fetchOnce dbNoPay 300 "q").1.userTab
      = dbNoPay.userTab ∧
    (process_payment_webhook false fetchOnce dbNoPay 300 "q").2 = [] ∧
    get_payment (process_payment_webhook false fetchOnce dbNoPay 300 "q").1
        "other"
      = get_payment dbNoPay "other" := by
  refine ⟨(fetch_failure_aborts_without_subscription_writes dbPending
    (fun _ => none) 50 "p2").1 rfl, ?_, ?_, ?_⟩
  all_goals
    have h := (fetch_failure_aborts_without_subscription_writes dbNoPay
      fetchOnce 300 "q").2 (by decide) (by decide)
  exacts [h.2.1, h.2.2.1, h.2.2.2 "other" (by decide)]

/-- Claim C9: an approved payment whose stored plan key matches no entry
in either plan table is not rejected as unmapped: reconciliation falls
back to a 30-day duration and activates the subscription for 30 days
(2592000 seconds) from the approval instant, firing the grant and
activation messages. -/
theorem unknown_plan_key_falls_back_to_30_days (db : Db)
    (fetch : Nat → Option MPPayment) (now : Int) (pid : String)
    (pay : PaymentRec) (mp : MPPayment)
    (hpay : get_payment db pid = some pay)
    (hplan : plan_days_from_key pay.planKey = none)
    (hfetch : fetch 0 = some mp)
    (hst : strLower mp.status = "approved") :
    (process_payment_webhook false fetch db now pid).2
      = [Ev.grantAccess pay.userId, Ev.activatedMsg pay.userId] ∧
    (get_user (process_payment_webhook false fetch db now pid).1
        pay.userId).map (fun u => (u.status, u.expiresAt, u.renewalNotified))
      = some (some "active", some (now + 2592000), 0) := by
  have heq : process_payment_webhook false fetch db now pid
      = approve_and_activate db now pay.userId 30 (some pid) := by
    simp only [process_payment_webhook, hpay, webhook_with_record, hfetch]
    rw [if_pos hst, hplan]
    rfl
  rw [heq]
  obtain ⟨a1, a2, _⟩ := approve_and_activate_char db now pay.userId 30 (some pid)
  refine ⟨a2, ?_⟩
  rw [a1, compute_expires_at_from_plan]
  norm_num

/-- Claim C9 witness: plan key `vitalicio` is in neither table; approval
at time 10 activates until 2592010. -/
theorem unknown_plan_key_falls_back_to_30_days_witness :
    (process_payment_webhook false (fun _ => some mpApprovedRef3)
        dbUnknownPlan 10 "p3").2
      = [Ev.grantAccess 7, Ev.activatedMsg 7] ∧
    (get_user (process_payment_webhook false (fun _ => some mpApprovedRef3)
        dbUnknownPlan 10 "p3").1 7).map
        (fun u => (u.status, u.expiresAt, u.renewalNotified))
      = some (some "active", some 2592010, 0) := by
  have h := unknown_plan_key_falls_back_to_30_days dbUnknownPlan
    (fun _ => some mpApprovedRef3) 10 "p3" payUnknownPlan mpApprovedRef3
    (by decide) (by decide) rfl (by decide)
  exact ⟨h.1, h.2⟩

/-- Claim C10: the user upsert run on every interactive command touches
only the display fields: an existing row keeps its status, expiry and
renewal-notified flag and gets the new first name and username; a missing
row is created with status `none`, null expiry and flag 0; all other
rows are untouched. -/
theorem upsert_user_preserves_subscription_fields (db : Db) (uid : Nat)
    (fn un : String) :
    (∀ u, get_user db uid = some u →
      get_user (upsert_user db uid fn un) uid
        = some { u with firstName := some fn, username := some un }) ∧
    (get_user db uid = none →
      get_user (upsert_user db uid fn un) uid
        = some ⟨some fn, some un, some "none", none, 0⟩) ∧
    (∀ v, v ≠ uid → get_user (upsert_user db uid fn un) v = get_user db v) := by
  refine ⟨?_, ?_, ?_⟩
  · intro u hu
    obtain ⟨h, htab⟩ := get_user_eq_some db uid u hu
    simp [get_user, upsert_user, h, ← htab]
  · intro hu
    unfold get_user at hu
    by_cases h : uid ∈ db.userIds
    · rw [if_pos h] at hu
      exact absurd hu (by simp)
    · simp [get_user, upsert_user, h]
  · intro v hv
    by_cases h : uid ∈ db.userIds
    · simp [get_user, upsert_user, h, hv]
    · simp [get_user, upsert_user, h, hv, List.mem_append]

/-- Claim C10 witness: updating names of the existing user 1 keeps the
subscription fields; upserting the unknown user 2 initializes status
`none` with null expiry; user 1 is untouched by the upsert of user 2. -/
theorem upsert_user_preserves_subscription_fields_witness :
    get_user (upsert_user dbWin 1 "Bia" "bia") 1
      = some { uWin with firstName := some "Bia", username := some "bia" } ∧
    get_user (upsert_user dbWin 2 "Caio" "caio") 2
      = some ⟨some "Caio", some "caio", some "none", none, 0⟩ ∧
    get_user (upsert_user dbWin 2 "Caio" "caio") 1 = get_user dbWin 1 :=
  ⟨(upsert_user_preserves_subscription_fields dbWin 1 "Bia" "bia").1 uWin
      (by decide),
   (upsert_user_preserves_subscription_fields dbWin 2 "Caio" "caio").2.1
      (by decide),
   (upsert_user_preserves_subscription_fields dbWin 2 "Caio" "caio").2.2 1
      (by decide)⟩
